import Mathlib

/-!
Verification development for the EDIFACT INVOIC generator
(src/source/invoic.py).  Python strings are embedded as lists of
characters, Python Decimal values as exact scaled integers, and the
raising of exceptions as Except values.  Each definition mirrors the
source function of the same (snake-case) name; deviations forced by the
embedding are noted in the doc comments.
-/

namespace Invoic

/-- Python strings are modelled as lists of characters. -/
abbrev Str := List Char

/-- Coerce a Lean string literal to the embedding type. -/
def str (x : String) : Str := x.data

/-- The apostrophe character (default EDIFACT segment terminator). -/
def apos : Char := Char.ofNat 39

/-- The EDIFACT release (escape) character. -/
def qmark : Char := '?'

/-- Characters for which Python str.isspace is true (restricted to code
points below 256, the range exercised here): tab, LF, VT, FF, CR, the
four information separators 0x1C-0x1F, space, NEL and NBSP. -/
def pyIsSpace (c : Char) : Bool :=
  c.toNat = 9 ∨ c.toNat = 10 ∨ c.toNat = 11 ∨ c.toNat = 12 ∨ c.toNat = 13 ∨
  c.toNat = 28 ∨ c.toNat = 29 ∨ c.toNat = 30 ∨ c.toNat = 31 ∨ c.toNat = 32 ∨
  c.toNat = 133 ∨ c.toNat = 160

/-- Python str.strip(): remove leading and trailing whitespace. -/
def pystrip (v : Str) : Str :=
  ((v.dropWhile pyIsSpace).reverse.dropWhile pyIsSpace).reverse

/-- Python str.upper restricted to ASCII letters (all data exercised by
the program is ASCII). -/
def pyUpper (c : Char) : Char := c.toUpper

/-- Concatenation of the images of a character function (used to state
per-character descriptions of string transforms). -/
def cmap (f : Char → Str) : Str → Str
  | [] => []
  | c :: cs => f c ++ cmap f cs

/-- Fueled worker for Python str.replace with a non-empty pattern:
left-to-right, non-overlapping.  The fuel is the length of the input,
which suffices because every step consumes at least one character. -/
def replaceAux (pat repl : Str) : Nat → Str → Str
  | _, [] => []
  | 0, l => l
  | f + 1, c :: cs =>
    if pat ≠ [] ∧ pat.isPrefixOf (c :: cs) then
      repl ++ replaceAux pat repl f (cs.drop (pat.length - 1))
    else
      c :: replaceAux pat repl f cs

/-- Python str.replace(pat, repl).  An empty pattern inserts the
replacement before every character and once at the end. -/
def pyReplace (l pat repl : Str) : Str :=
  if pat = [] then repl ++ cmap (fun c => c :: repl) l
  else replaceAux pat repl l.length l

/-- Generator configuration (the constructor arguments of
EDIFACTGenerator).  The decimal-notation argument is stored by the
source constructor but never read, so it is not modelled. -/
structure GenCfg where
  data_separator : Str
  component_separator : Str
  segment_terminator : Str
  precision : Nat
deriving Repr, DecidableEq

/-- The default configuration: separator plus, component colon,
terminator apostrophe, precision 2. -/
def cfg0 : GenCfg := ⟨['+'], [':'], [apos], 2⟩

/-- EDIFACTGenerator._escape_segment_value: five sequential
str.replace passes, in source order: double the release character,
then prefix the terminator, the data separator, the component
separator, and the space character with one release character. -/
def escape_segment_value (cfg : GenCfg) (value : Str) : Str :=
  let v1 := pyReplace value [qmark] [qmark, qmark]
  let v2 := pyReplace v1 [apos] [qmark, apos]
  let v3 := pyReplace v2 cfg.data_separator (qmark :: cfg.data_separator)
  let v4 := pyReplace v3 cfg.component_separator (qmark :: cfg.component_separator)
  pyReplace v4 [' '] [qmark, ' ']

/-- Python str.join: the pieces interleaved with the separator. -/
def joinSep (sep : Str) : List Str → Str
  | [] => []
  | [x] => x
  | x :: y :: xs => x ++ sep ++ joinSep sep (y :: xs)

/-- EDIFACTGenerator._build_segment: tag, data separator, the elements
joined by the data separator, terminator.  The source performs no
length check and has no error path. -/
def build_segment (cfg : GenCfg) (segment_id : Str) (elements : List Str) : Str :=
  segment_id ++ cfg.data_separator ++
    (joinSep cfg.data_separator elements) ++ cfg.segment_terminator

/-- Exact decimal number: coefficient times ten to the exponent.  This
embeds Python Decimal values (which the program only combines by exact
addition, multiplication and division by 100, all exact well inside the
default 28-digit context). -/
structure Dec where
  c : Int
  e : Int
deriving Repr, DecidableEq

/-- The rational value of a decimal (kernel-computable form). -/
def Dec.toRat (d : Dec) : Rat :=
  if 0 ≤ d.e then ((d.c * 10 ^ d.e.toNat : Int) : Rat)
  else mkRat d.c (10 ^ (-d.e).toNat)

/-- Decimal addition: align to the smaller exponent (Python Decimal
ideal exponent), add coefficients. -/
def Dec.add (a b : Dec) : Dec :=
  let m := min a.e b.e
  ⟨a.c * (10 : Int) ^ (a.e - m).toNat + b.c * (10 : Int) ^ (b.e - m).toNat, m⟩

/-- Decimal multiplication: multiply coefficients, add exponents. -/
def Dec.mul (a b : Dec) : Dec := ⟨a.c * b.c, a.e + b.e⟩

/-- Division by Decimal 100, as used for tax computation: exact
exponent shift. -/
def Dec.div100 (a : Dec) : Dec := ⟨a.c, a.e - 2⟩

/-- Decimal literal 0.00 (the accumulator seeds in _process_items). -/
def dec000 : Dec := ⟨0, -2⟩

/-- Decimal digits of a natural number, most significant first. -/
def natToStr (n : Nat) : Str := Nat.toDigits 10 n

/-- Decimal rendering of an integer with a leading minus sign when
negative. -/
def intToStr (i : Int) : Str :=
  if i < 0 then '-' :: natToStr i.natAbs else natToStr i.natAbs

/-- Round q times ten to the p to the nearest integer, ties to even:
the rounding Python Decimal formatting applies under the default
context (ROUND_HALF_EVEN).  Reference form over the rationals, used in
theorem statements. -/
def ratScaledHalfEven (q : Rat) (p : Nat) : Int :=
  let x : Rat := q * (10 : Rat) ^ p
  let f : Int := ⌊x⌋
  let r : Rat := x - (f : Rat)
  if r < 1 / 2 then f
  else if 1 / 2 < r then f + 1
  else if f % 2 = 0 then f else f + 1

/-- Executable half-even rounding of the decimal d to p fractional
digits: the integer coefficient of the quantized value.  When the
exponent already has at most p fractional digits this is an exact
rescale; otherwise the excess digits are divided out with floor
division and the remainder decides the rounding. -/
def Dec.scaledHalfEven (d : Dec) (p : Nat) : Int :=
  let k : Int := d.e + p
  if 0 ≤ k then d.c * 10 ^ k.toNat
  else
    let m : Int := 10 ^ (-k).toNat
    let q := Int.fdiv d.c m
    let r := Int.fmod d.c m
    if 2 * r < m then q
    else if m < 2 * r then q + 1
    else if q % 2 = 0 then q else q + 1

/-- Left-pad a digit string with zeros to length p. -/
def padZeros (p : Nat) (s : Str) : Str := List.replicate (p - s.length) '0' ++ s

/-- Render the integer n as n divided by ten to the p with exactly p
fractional digits (no decimal point when p is zero).  Python renders a
negative zero result with its sign; that branch is unreachable here
because every formatted quantity is non-negative, and it is not
modelled. -/
def formatScaled (n : Int) (p : Nat) : Str :=
  let sign : Str := if n < 0 then ['-'] else []
  let a := n.natAbs
  if p = 0 then sign ++ natToStr a
  else sign ++ natToStr (a / 10 ^ p) ++ ['.'] ++ padZeros p (natToStr (a % 10 ^ p))

/-- Python format(d, ".pf") on a Decimal: quantize to p fractional
digits with ROUND_HALF_EVEN, then render with exactly p fractional
digits. -/
def Dec.formatFixed (d : Dec) (p : Nat) : Str := formatScaled (d.scaledHalfEven p) p

/-- Executable exact comparison of two decimals: align to the smaller
exponent and compare coefficients. -/
def Dec.lt (a b : Dec) : Bool :=
  let m := min a.e b.e
  a.c * (10 : Int) ^ (a.e - m).toNat < b.c * (10 : Int) ^ (b.e - m).toNat

/-- Python str() of a finite Decimal: the to-scientific-string
conversion of the General Decimal Arithmetic specification. -/
def Dec.pyStr (d : Dec) : Str :=
  let sign : Str := if d.c < 0 then ['-'] else []
  let ds := natToStr d.c.natAbs
  let n : Int := ds.length
  let adj : Int := d.e + n - 1
  if d.e ≤ 0 ∧ -6 ≤ adj then
    if d.e = 0 then sign ++ ds
    else if 0 ≤ adj then
      sign ++ ds.take (adj.toNat + 1) ++ ['.'] ++ ds.drop (adj.toNat + 1)
    else
      sign ++ ['0', '.'] ++ List.replicate (-(adj + 1)).toNat '0' ++ ds
  else
    let m := if ds.length = 1 then ds else ds.take 1 ++ ['.'] ++ ds.drop 1
    sign ++ m ++ ['E'] ++ (if 0 ≤ adj then ['+'] else []) ++ intToStr adj

/-- ASCII decimal digit test. -/
def isDig (c : Char) : Bool := 48 ≤ c.toNat ∧ c.toNat ≤ 57

/-- Value of a string of decimal digits. -/
def digitsToNat (s : Str) : Nat := s.foldl (fun acc c => acc * 10 + (c.toNat - 48)) 0

/-- Python Decimal(str) on ordinary finite numerals: optional
whitespace and sign, digits with an optional fractional part, and an
optional exponent.  Special values (NaN, Infinity) are modelled as
parse failures, which the program treats the same way (the comparisons
raising InvalidOperation happen inside the same try block as the
construction). -/
def pyDecParse (s0 : Str) : Option Dec :=
  let s := pystrip s0
  let (sign, s1) :=
    match s with
    | '-' :: rest => ((-1 : Int), rest)
    | '+' :: rest => ((1 : Int), rest)
    | _ => ((1 : Int), s)
  let a := s1.takeWhile isDig
  let s2 := s1.dropWhile isDig
  let (b, s3) :=
    match s2 with
    | '.' :: rest => (rest.takeWhile isDig, rest.dropWhile isDig)
    | _ => ([], s2)
  if a.length + b.length = 0 then none
  else
    let coeff : Int := sign * (digitsToNat (a ++ b) : Int)
    match s3 with
    | [] => some ⟨coeff, -(b.length : Int)⟩
    | c :: rest =>
      if c = 'e' ∨ c = 'E' then
        let (esign, r1) :=
          match rest with
          | '-' :: r => ((-1 : Int), r)
          | '+' :: r => ((1 : Int), r)
          | _ => ((1 : Int), rest)
        let ed := r1.takeWhile isDig
        if ed ≠ [] ∧ r1.dropWhile isDig = [] then
          some ⟨coeff, esign * (digitsToNat ed : Int) - (b.length : Int)⟩
        else none
      else none

/-- Decidable equality for Except results, used to evaluate concrete
outcomes of the embedded functions. -/
instance {ε α : Type} [DecidableEq ε] [DecidableEq α] : DecidableEq (Except ε α) := fun x y =>
  match x, y with
  | .ok a, .ok b =>
    if h : a = b then isTrue (by rw [h]) else isFalse (by simp [h])
  | .error a, .error b =>
    if h : a = b then isTrue (by rw [h]) else isFalse (by simp [h])
  | .ok _, .error _ => isFalse (by simp)
  | .error _, .ok _ => isFalse (by simp)

/-! ## Configuration constants (EDIFACTConfig) -/

def VALID_PARTY_QUALIFIERS : List Str := [str "BY", str "SU", str "IV", str "DP", str "PE"]

def VALID_PAYMENT_METHODS : List Str := [str "5", str "1", str "10"]

def VALID_CURRENCIES : List Str :=
  [str "USD", str "EUR", str "GBP", str "JPY", str "CAD", str "AUD", str "CHF", str "CNY"]

def VALID_COUNTRIES : List Str :=
  [str "US", str "GB", str "FR", str "DE", str "IT", str "ES", str "NL", str "BE",
   str "CN", str "JP", str "AU", str "CA"]

def VALID_ENCODINGS : List Str := [str "utf-8", str "ascii", str "iso-8859-1"]

/-- The UNOA character repertoire, including the apostrophe. -/
def UNOA_ALLOWED_CHARS : Str :=
  str "ABCDEFGHIJKLMNOPQRSTUVWXYZ0123456789 -.&" ++ [apos] ++ str "()+,:;=?@"

def MAX_PRODUCT_CODE_LENGTH : Nat := 35
def MAX_DESCRIPTION_LENGTH : Nat := 70
def MAX_NAME_LENGTH : Nat := 35
def MAX_ADDRESS_LINE_LENGTH : Nat := 35
def MAX_CITY_LENGTH : Nat := 35
def MAX_COUNTRY_LENGTH : Nat := 3

/-- MAX_QUANTITY as a decimal. -/
def MAX_QUANTITY : Dec := ⟨999999, 0⟩

/-- MAX_PRICE as a decimal.  In the source this bound is the Python
float 9999999.99, whose exact binary value is about 3e-9 below the
decimal 9999999.99; the difference is observable only for prices inside
that sliver and none of the claims touch it. -/
def MAX_PRICE : Dec := ⟨999999999, -2⟩

/-! ## Data model

The in-memory invoice record.  The JSON layer is embedded structurally:
required keys become fields, optional keys become Option fields, and
numeric JSON values are taken in their string form (the schema admits
either; its minimum-0 annotation applies only to JSON numbers and is
therefore vacuous here). -/

structure Party where
  qualifier : Str
  id : Str
  name : Option Str := none
  street : Option Str := none
  city : Option Str := none
  country : Option Str := none
deriving Repr, DecidableEq

structure Item where
  product_code : Str
  description : Str
  quantity : Str
  price : Str
  tax_rate : Option Str := none
  unit : Option Str := none
deriving Repr, DecidableEq

structure PaymentTerms where
  due_date : Option Str := none
  method : Option Str := none
deriving Repr, DecidableEq

structure AllowanceCharge where
  indicator : Str
  amount : Str
  description : Option Str := none
deriving Repr, DecidableEq

structure InvoiceData where
  message_ref : Str
  invoice_number : Str
  invoice_date : Str
  currency : Option Str := none
  reference : Option Str := none
  parties : List Party
  items : List Item
  payment_terms : Option PaymentTerms := none
  allowances_charges : Option (List AllowanceCharge) := none
deriving Repr, DecidableEq

/-- The distinct raise sites of EDIFACTGeneratorError, tagged by their
meaning.  Message payloads whose rendering depends on Python set
iteration order are not carried. -/
inductive GenError where
  | invalidJsonStructure
  | emptyField (field : Str)
  | invalidChars (field : Str)
  | invalidCharacterSet (field : Str)
  | invalidDateFormat (field : Str)
  | missingPartyQualifiers
  | duplicatePartyQualifiers
  | invalidPartyQualifier
  | emptyPartyId
  | invalidCountry
  | itemFieldTooLong (index : Nat) (field : Str)
  | invalidQuantity (index : Nat)
  | invalidPrice (index : Nat)
  | invalidTaxRate (index : Nat)
  | invalidIndicator (index : Nat)
  | invalidAmount (index : Nat)
  | invalidPaymentMethod
  | invalidCurrency
  | noItems
  | invalidFileEncoding
  | decimalConversion
deriving Repr, DecidableEq

/-! ## Validator (EDIFACTValidator) -/

/-- EDIFACTValidator.sanitize_value: str() and strip, optional upper
case, optional truncation.  Python applies the truncation only when
max_length is truthy, so a limit of 0 does not truncate. -/
def sanitize_value (value : Str) (uppercase : Bool := false)
    (max_length : Option Nat := none) : Str :=
  let r := pystrip value
  let r := if uppercase then r.map pyUpper else r
  match max_length with
  | some m => if m ≠ 0 ∧ m < r.length then r.take m else r
  | none => r

/-- Calendar helpers for strptime("%Y%m%d"). -/
def isLeapYear (y : Nat) : Bool := (y % 4 = 0 ∧ y % 100 ≠ 0) ∨ y % 400 = 0

def daysInMonth (y m : Nat) : Nat :=
  if m = 2 then (if isLeapYear y then 29 else 28)
  else if m = 4 ∨ m = 6 ∨ m = 9 ∨ m = 11 then 30
  else 31

/-- Eight ASCII digits. -/
def digits8 (t : Str) : Bool := t.length = 8 ∧ t.all isDig

/-- EDIFACTValidator.validate_date for the default format: strip, an
eight-digit regex match, and a strptime check that the digits name a
real calendar date with year at least 1. -/
def validate_date (date_str : Str) : Bool :=
  let t := pystrip date_str
  digits8 t ∧
    (let y := digitsToNat (t.take 4)
     let m := digitsToNat ((t.drop 4).take 2)
     let d := digitsToNat (t.drop 6)
     1 ≤ y ∧ 1 ≤ m ∧ m ≤ 12 ∧ 1 ≤ d ∧ d ≤ daysInMonth y m)

/-- EDIFACTValidator.validate_positive_number: parse the stripped
string as a Decimal; reject parse failures, negative values, and
values above the optional maximum.  Zero is accepted. -/
def validate_positive_number (value : Str) (max_value : Option Dec := none) : Bool :=
  match pyDecParse (pystrip value) with
  | none => false
  | some num =>
    if Dec.lt num ⟨0, 0⟩ then false
    else match max_value with
      | some m => if Dec.lt m num then false else true
      | none => true

/-- The character class of the validate_alphanumeric regex: ASCII
letters and digits, regex whitespace, and the literals underscore,
hyphen, dot, at, hash, ampersand. -/
def wordClass (c : Char) : Bool :=
  (65 ≤ c.toNat ∧ c.toNat ≤ 90) ∨ (97 ≤ c.toNat ∧ c.toNat ≤ 122) ∨
  (48 ≤ c.toNat ∧ c.toNat ≤ 57) ∨ pyIsSpace c ∨
  c = '_' ∨ c = '-' ∨ c = '.' ∨ c = '@' ∨ c = '#' ∨ c = '&'

/-- EDIFACTValidator.validate_alphanumeric as a predicate: the value is
non-empty and every character is in the class. -/
def alphanumeric_ok (value : Str) : Bool := value ≠ [] ∧ value.all wordClass

/-- EDIFACTValidator.validate_character_set as a predicate: for UNOA,
every character of the upper-cased value is in the UNOA repertoire; any
other character set passes. -/
def charset_ok (character_set value : Str) : Bool :=
  if character_set = str "UNOA" then
    (value.map pyUpper).all (fun c => c ∈ UNOA_ALLOWED_CHARS)
  else true

/-- EDIFACTValidator.validate_party.  The presence of the qualifier
and id keys is enforced by the record type. -/
def validate_party (character_set : Str) (party : Party) : Except GenError Unit :=
  let qualifier := sanitize_value party.qualifier true none
  let party_id := sanitize_value party.id
  if ¬ charset_ok character_set qualifier then .error (.invalidCharacterSet (str "party qualifier"))
  else if ¬ charset_ok character_set party_id then .error (.invalidCharacterSet (str "party id"))
  else if ¬ qualifier ∈ VALID_PARTY_QUALIFIERS then .error .invalidPartyQualifier
  else if party_id = [] then .error .emptyPartyId
  else
    match party.name with
    | some nm =>
      let name := sanitize_value nm true (some MAX_NAME_LENGTH)
      if ¬ alphanumeric_ok name then .error (.invalidChars (str "party name"))
      else if ¬ charset_ok character_set name then .error (.invalidCharacterSet (str "party name"))
      else validate_party_country character_set party
    | none => validate_party_country character_set party
where
  /-- The trailing country block of validate_party. -/
  validate_party_country (character_set : Str) (party : Party) : Except GenError Unit :=
    match party.country with
    | some co =>
      let country := sanitize_value co true none
      if ¬ charset_ok character_set country then .error (.invalidCharacterSet (str "country"))
      else if ¬ country ∈ VALID_COUNTRIES then .error .invalidCountry
      else .ok ()
    | none => .ok ()

/-- EDIFACTValidator.validate_item.  The presence of the four required
keys is enforced by the record type. -/
def validate_item (character_set : Str) (index : Nat) (item : Item) : Except GenError Unit :=
  let product_code := sanitize_value item.product_code true none
  let description := sanitize_value item.description true none
  if ¬ alphanumeric_ok product_code then .error (.invalidChars (str "product code"))
  else if ¬ alphanumeric_ok description then .error (.invalidChars (str "description"))
  else if ¬ charset_ok character_set product_code then .error (.invalidCharacterSet (str "product code"))
  else if ¬ charset_ok character_set description then .error (.invalidCharacterSet (str "description"))
  else if MAX_PRODUCT_CODE_LENGTH < product_code.length then
    .error (.itemFieldTooLong index (str "product code"))
  else if MAX_DESCRIPTION_LENGTH < description.length then
    .error (.itemFieldTooLong index (str "description"))
  else if ¬ validate_positive_number item.quantity (some MAX_QUANTITY) then
    .error (.invalidQuantity index)
  else if ¬ validate_positive_number item.price (some MAX_PRICE) then
    .error (.invalidPrice index)
  else if ¬ item.tax_rate.all (fun tr => validate_positive_number tr none) then
    .error (.invalidTaxRate index)
  else
    match item.unit with
    | some u =>
      let unit := sanitize_value u true none
      if ¬ alphanumeric_ok unit then .error (.invalidChars (str "unit"))
      else if ¬ charset_ok character_set unit then .error (.invalidCharacterSet (str "unit"))
      else .ok ()
    | none => .ok ()

/-- EDIFACTValidator.validate_allowance_charge. -/
def validate_allowance_charge (character_set : Str) (index : Nat)
    (allowance : AllowanceCharge) : Except GenError Unit :=
  let indicator := sanitize_value allowance.indicator true none
  if ¬ (indicator = str "A" ∨ indicator = str "C") then .error (.invalidIndicator index)
  else if ¬ charset_ok character_set indicator then
    .error (.invalidCharacterSet (str "allowance indicator"))
  else if ¬ validate_positive_number allowance.amount none then .error (.invalidAmount index)
  else
    match allowance.description with
    | some ds =>
      let description := sanitize_value ds true none
      if ¬ alphanumeric_ok description then .error (.invalidChars (str "allowance description"))
      else if ¬ charset_ok character_set description then
        .error (.invalidCharacterSet (str "allowance description"))
      else .ok ()
    | none => .ok ()

/-- EDIFACTValidator.JSON_SCHEMA, checked by jsonschema.validate, over
inputs of the embedded record shape.  Required keys and JSON types are
enforced by the record type itself; what remains are the minLength,
pattern, enum and minItems annotations (pattern is checked on the raw
value, and the minimum-0 annotations are vacuous for string-typed
numbers). -/
def jsonSchemaOk (d : InvoiceData) : Bool :=
  1 ≤ d.message_ref.length ∧
  1 ≤ d.invoice_number.length ∧
  digits8 d.invoice_date ∧
  d.currency.all (fun c => c ∈ VALID_CURRENCIES) ∧
  d.reference.all (fun r => 1 ≤ r.length) ∧
  2 ≤ d.parties.length ∧
  d.parties.all (fun p =>
    p.qualifier ∈ VALID_PARTY_QUALIFIERS ∧ 1 ≤ p.id.length ∧
    p.country.all (fun co => co ∈ VALID_COUNTRIES)) ∧
  1 ≤ d.items.length ∧
  d.items.all (fun it => 1 ≤ it.product_code.length ∧ 1 ≤ it.description.length) ∧
  d.payment_terms.all (fun pt =>
    pt.due_date.all digits8 ∧ pt.method.all (fun m => m ∈ VALID_PAYMENT_METHODS)) ∧
  d.allowances_charges.all (fun als =>
    als.all (fun al => al.indicator = str "A" ∨ al.indicator = str "C"))

/-- The sanitized upper-cased qualifiers of the parties, in order. -/
def sanitized_qualifiers (d : InvoiceData) : List Str :=
  d.parties.map (fun p => sanitize_value p.qualifier true none)

/-- The parties loop of _validate_invoice_data. -/
def validate_parties (character_set : Str) : List Party → Except GenError Unit
  | [] => .ok ()
  | p :: ps =>
    match validate_party character_set p with
    | .error e => .error e
    | .ok () => validate_parties character_set ps

/-- The items loop of _validate_invoice_data (enumerate from 1). -/
def validate_items (character_set : Str) (index : Nat) : List Item → Except GenError Unit
  | [] => .ok ()
  | it :: its =>
    match validate_item character_set index it with
    | .error e => .error e
    | .ok () => validate_items character_set (index + 1) its

/-- The allowances loop of _validate_invoice_data (enumerate from 1). -/
def validate_allowances (character_set : Str) (index : Nat) :
    List AllowanceCharge → Except GenError Unit
  | [] => .ok ()
  | al :: als =>
    match validate_allowance_charge character_set index al with
    | .error e => .error e
    | .ok () => validate_allowances character_set (index + 1) als

/-- The payment_terms block of _validate_invoice_data. -/
def validate_payment_block (pt : PaymentTerms) : Except GenError Unit :=
  if ¬ pt.due_date.all validate_date then .error (.invalidDateFormat (str "due_date"))
  else if ¬ pt.method.all (fun me => sanitize_value me ∈ VALID_PAYMENT_METHODS) then
    .error .invalidPaymentMethod
  else .ok ()

/-- The currency block of _validate_invoice_data. -/
def validate_currency_block (character_set : Str) (cur : Str) : Except GenError Unit :=
  let currency := sanitize_value cur true none
  if ¬ charset_ok character_set currency then .error (.invalidCharacterSet (str "currency"))
  else if ¬ currency ∈ VALID_CURRENCIES then .error .invalidCurrency
  else .ok ()

/-- The reference block of _validate_invoice_data. -/
def validate_reference_block (character_set : Str) (refv : Str) : Except GenError Unit :=
  let reference := sanitize_value refv
  if ¬ alphanumeric_ok reference then .error (.invalidChars (str "reference"))
  else if ¬ charset_ok character_set reference then
    .error (.invalidCharacterSet (str "reference"))
  else .ok ()

/-- EDIFACTGenerator._validate_invoice_data, in source order: schema,
required-field non-emptiness (presence and Python types are enforced by
the record type), message-reference character checks, invoice-date
check, required and duplicate qualifier checks, the party loop, the
item checks, and the optional payment, currency, reference and
allowance blocks.  The duplicate check compares the cardinality of the
set of sanitized qualifiers with the number of parties. -/
def validate_invoice_data (character_set : Str) (d : InvoiceData) : Except GenError Unit :=
  if ¬ jsonSchemaOk d then .error .invalidJsonStructure
  else if d.message_ref = [] then .error (.emptyField (str "message_ref"))
  else if d.invoice_number = [] then .error (.emptyField (str "invoice_number"))
  else if d.invoice_date = [] then .error (.emptyField (str "invoice_date"))
  else if d.parties = [] then .error (.emptyField (str "parties"))
  else if d.items = [] then .error (.emptyField (str "items"))
  else if ¬ alphanumeric_ok (sanitize_value d.message_ref) then
    .error (.invalidChars (str "message reference"))
  else if ¬ charset_ok character_set (sanitize_value d.message_ref) then
    .error (.invalidCharacterSet (str "message reference"))
  else if ¬ validate_date d.invoice_date then .error (.invalidDateFormat (str "invoice_date"))
  else if ¬ (str "BY" ∈ sanitized_qualifiers d ∧ str "SU" ∈ sanitized_qualifiers d) then
    .error .missingPartyQualifiers
  else if (sanitized_qualifiers d).eraseDups.length ≠ d.parties.length then
    .error .duplicatePartyQualifiers
  else
    match validate_parties character_set d.parties with
    | .error e => .error e
    | .ok () =>
      if d.items.length = 0 then .error .noItems
      else
        match validate_items character_set 1 d.items with
        | .error e => .error e
        | .ok () =>
          match (match d.payment_terms with
                 | some pt => validate_payment_block pt
                 | none => .ok ()) with
          | .error e => .error e
          | .ok () =>
            match (match d.currency with
                   | some cur => validate_currency_block character_set cur
                   | none => .ok ()) with
            | .error e => .error e
            | .ok () =>
              match (match d.reference with
                     | some refv => validate_reference_block character_set refv
                     | none => .ok ()) with
              | .error e => .error e
              | .ok () =>
                match d.allowances_charges with
                | some als => validate_allowances character_set 1 als
                | none => .ok ()

/-! ## Generator (EDIFACTGenerator) -/

/-- EDIFACTGenerator._generate_interchange_header.  The source reads
datetime.now() for the timestamp element; the clock reading is passed
in as the timestamp argument. -/
def generate_interchange_header (cfg : GenCfg) (d : InvoiceData)
    (interchange_control_ref application_ref : Option Str)
    (character_set timestamp : Str) : Str :=
  let control_ref := interchange_control_ref.getD (sanitize_value d.message_ref)
  let app_ref := application_ref.getD (str "PYEDIFACT")
  build_segment cfg (str "UNB")
    [str "UNOC" ++ cfg.component_separator ++ str "3",
     app_ref ++ cfg.component_separator ++ control_ref,
     str "RECEIVER" ++ cfg.component_separator ++ str "001",
     timestamp,
     control_ref,
     str "1" ++ cfg.component_separator ++ character_set]

/-- EDIFACTGenerator._generate_message_header. -/
def generate_message_header (cfg : GenCfg) (d : InvoiceData)
    (edi_version character_set : Str) : Str :=
  build_segment cfg (str "UNH")
    [escape_segment_value cfg (sanitize_value d.message_ref),
     str "INVOIC" ++ cfg.component_separator ++ edi_version ++
       cfg.component_separator ++ character_set]

/-- EDIFACTGenerator._generate_party_segments.  The street and city
values are character-set checked after escaping, inside generation, and
can raise. -/
def generate_party_segments (cfg : GenCfg) (character_set : Str) :
    List Party → Except GenError (List Str)
  | [] => .ok []
  | party :: rest =>
    let qualifier := sanitize_value party.qualifier true none
    let party_id := escape_segment_value cfg (sanitize_value party.id)
    let elements := [qualifier, party_id, str "91"] ++
      [match party.name with
       | some nm => escape_segment_value cfg (sanitize_value nm true (some MAX_NAME_LENGTH))
       | none => []]
    let streetE := party.street.map (fun st =>
      escape_segment_value cfg (sanitize_value st true (some MAX_ADDRESS_LINE_LENGTH)))
    let cityE := party.city.map (fun ci =>
      escape_segment_value cfg (sanitize_value ci true (some MAX_CITY_LENGTH)))
    if ¬ streetE.all (charset_ok character_set) then
      .error (.invalidCharacterSet (str "street"))
    else if ¬ cityE.all (charset_ok character_set) then
      .error (.invalidCharacterSet (str "city"))
    else
      let address_elements := streetE.toList ++ cityE.toList ++
        (party.country.map (fun co => sanitize_value co true (some MAX_COUNTRY_LENGTH))).toList
      let elements := if address_elements ≠ [] then
          elements ++ [joinSep cfg.component_separator
            (address_elements.filter (fun e => e ≠ []))]
        else elements
      match generate_party_segments cfg character_set rest with
      | .error e => .error e
      | .ok segs => .ok (build_segment cfg (str "NAD") elements :: segs)

/-- One pass of the _process_items loop body: the per-item segments
and the updated running totals. -/
def process_items_aux (cfg : GenCfg) : Nat → Dec → Dec → List Item →
    Except GenError (Dec × Dec × List Str)
  | _, total_amount, total_tax, [] => .ok (total_amount, total_tax, [])
  | index, total_amount, total_tax, item :: rest =>
    match pyDecParse (sanitize_value item.quantity),
          pyDecParse (sanitize_value item.price),
          pyDecParse (sanitize_value (item.tax_rate.getD (str "0"))) with
    | some quantity, some price, some tax_rate =>
      let unit := sanitize_value (item.unit.getD (str "EA")) true none
      let line_total := Dec.mul price quantity
      let lin := build_segment cfg (str "LIN")
        [natToStr index, [],
         escape_segment_value cfg (sanitize_value item.product_code true none) ++
           cfg.component_separator ++ str "EN"]
      let imd := build_segment cfg (str "IMD")
        [str "F", [], [], [],
         escape_segment_value cfg (sanitize_value item.description true none)]
      let qty := build_segment cfg (str "QTY")
        [str "47" ++ cfg.component_separator ++ quantity.pyStr ++
          cfg.component_separator ++ unit]
      let pri := build_segment cfg (str "PRI")
        [str "AAA" ++ cfg.component_separator ++ price.formatFixed cfg.precision ++
          cfg.component_separator ++ unit]
      let base := [lin, imd, qty, pri]
      if Dec.lt ⟨0, 0⟩ tax_rate then
        let tax_value := (Dec.mul line_total tax_rate).div100
        let taxSeg := build_segment cfg (str "TAX")
          [str "7", str "VAT", [], [], tax_rate.formatFixed cfg.precision, str "S"]
        let moaTax := build_segment cfg (str "MOA")
          [str "125" ++ cfg.component_separator ++ tax_value.formatFixed cfg.precision]
        match process_items_aux cfg (index + 1) (Dec.add total_amount line_total)
              (Dec.add total_tax tax_value) rest with
        | .error e => .error e
        | .ok (t, x, segs) => .ok (t, x, base ++ [taxSeg, moaTax] ++ segs)
      else
        match process_items_aux cfg (index + 1) (Dec.add total_amount line_total)
              total_tax rest with
        | .error e => .error e
        | .ok (t, x, segs) => .ok (t, x, base ++ segs)
    | _, _, _ => .error .decimalConversion

/-- EDIFACTGenerator._process_items: running totals start at Decimal
0.00; an unparsable quantity, price or tax rate raises (an uncaught
InvalidOperation in the source). -/
def process_items (cfg : GenCfg) (items : List Item) : Except GenError (Dec × Dec × List Str) :=
  process_items_aux cfg 1 dec000 dec000 items

/-- EDIFACTGenerator._generate_allowance_segments. -/
def generate_allowance_segments (cfg : GenCfg) :
    List AllowanceCharge → Except GenError (List Str)
  | [] => .ok []
  | allowance :: rest =>
    let indicator := sanitize_value allowance.indicator true none
    match pyDecParse (sanitize_value allowance.amount) with
    | none => .error .decimalConversion
    | some amount =>
      let alc := build_segment cfg (str "ALC")
        [indicator, [], [], [],
         str "8" ++ cfg.component_separator ++
           escape_segment_value cfg (sanitize_value (allowance.description.getD []) true none)]
      let moa := build_segment cfg (str "MOA")
        [str "8" ++ cfg.component_separator ++ amount.formatFixed cfg.precision]
      match generate_allowance_segments cfg rest with
      | .error e => .error e
      | .ok segs => .ok (alc :: moa :: segs)

/-- EDIFACTGenerator._generate_monetary_segments: always three MOA
segments, for the line total (86), the tax total (176) and the grand
total (9). -/
def generate_monetary_segments (cfg : GenCfg) (total_amount total_tax : Dec) : List Str :=
  let grand_total := Dec.add total_amount total_tax
  [build_segment cfg (str "MOA")
     [str "86" ++ cfg.component_separator ++ total_amount.formatFixed cfg.precision],
   build_segment cfg (str "MOA")
     [str "176" ++ cfg.component_separator ++ total_tax.formatFixed cfg.precision],
   build_segment cfg (str "MOA")
     [str "9" ++ cfg.component_separator ++ grand_total.formatFixed cfg.precision]]

/-- EDIFACTGenerator._generate_payment_segments: a PAT and a DTM
segment, produced only when a due date is present. -/
def generate_payment_segments (cfg : GenCfg) (payment_terms : PaymentTerms) : List Str :=
  match payment_terms.due_date with
  | some due =>
    let payment_method := sanitize_value (payment_terms.method.getD (str "5"))
    [build_segment cfg (str "PAT") [str "1", [], payment_method],
     build_segment cfg (str "DTM")
       [str "13" ++ cfg.component_separator ++ due ++ cfg.component_separator ++ str "102"]]
  | none => []

/-- The body-segment sequence of generate_invoic (everything before
the two trailers), in source order, given the already-generated party,
item and allowance segments and the accumulated totals: UNB, UNH, BGM,
DTM, the optional CUX and RFF, the party, item and allowance segments,
the monetary summary, and the optional payment segments. -/
def invoic_body (cfg : GenCfg) (d : InvoiceData)
    (edi_version character_set : Str)
    (interchange_control_ref application_ref : Option Str) (timestamp : Str)
    (partySegs itemSegs allowSegs : List Str) (total_amount total_tax : Dec) : List Str :=
  [generate_interchange_header cfg d interchange_control_ref application_ref
     character_set timestamp,
   generate_message_header cfg d edi_version character_set,
   build_segment cfg (str "BGM")
     [str "380", escape_segment_value cfg (sanitize_value d.invoice_number), str "9"],
   build_segment cfg (str "DTM")
     [str "137" ++ cfg.component_separator ++ d.invoice_date ++
       cfg.component_separator ++ str "102"]] ++
  (match d.currency with
   | some cur => [build_segment cfg (str "CUX")
       [str "2" ++ cfg.component_separator ++ cur ++ cfg.component_separator ++ str "9"]]
   | none => []) ++
  (match d.reference with
   | some rf => [build_segment cfg (str "RFF")
       [str "ON" ++ cfg.component_separator ++
         escape_segment_value cfg (sanitize_value rf)]]
   | none => []) ++
  partySegs ++ itemSegs ++ allowSegs ++
  generate_monetary_segments cfg total_amount total_tax ++
  (match d.payment_terms with
   | some pt => generate_payment_segments cfg pt
   | none => [])

/-- The trailers of generate_invoic: the UNT segment, whose count
element is the number of segments accumulated so far plus one for the
trailer itself, and the UNZ segment. -/
def append_trailers (cfg : GenCfg) (d : InvoiceData)
    (interchange_control_ref : Option Str) (body : List Str) : List Str :=
  body ++
  [build_segment cfg (str "UNT")
     [natToStr (body.length + 1), escape_segment_value cfg (sanitize_value d.message_ref)],
   build_segment cfg (str "UNZ")
     [str "1", interchange_control_ref.getD (sanitize_value d.message_ref)]]

/-- The segment list built by EDIFACTGenerator.generate_invoic, in
source order: validation, then the body segments followed by the UNT
and UNZ trailers. -/
def generate_invoic_segments (cfg : GenCfg) (d : InvoiceData)
    (edi_version character_set : Str)
    (interchange_control_ref application_ref : Option Str)
    (timestamp : Str) : Except GenError (List Str) :=
  match validate_invoice_data character_set d with
  | .error e => .error e
  | .ok () =>
    match generate_party_segments cfg character_set d.parties with
    | .error e => .error e
    | .ok partySegs =>
      match process_items cfg d.items with
      | .error e => .error e
      | .ok (total_amount, total_tax, itemSegs) =>
        match (match d.allowances_charges with
               | some als => generate_allowance_segments cfg als
               | none => .ok []) with
        | .error e => .error e
        | .ok allowSegs =>
          .ok (append_trailers cfg d interchange_control_ref
            (invoic_body cfg d edi_version character_set interchange_control_ref
              application_ref timestamp partySegs itemSegs allowSegs
              total_amount total_tax))

/-- EDIFACTGenerator.generate_invoic restricted to its in-memory
outcome (the file-saving branch is external collaboration): the
file-encoding guard, then the segment list joined with newlines plus a
trailing newline.  The UNOA non-ASCII condition only logs a warning
and does not affect the returned text. -/
def generate_invoic (cfg : GenCfg) (d : InvoiceData)
    (edi_version character_set file_encoding : Str)
    (interchange_control_ref application_ref : Option Str)
    (timestamp : Str) : Except GenError Str :=
  if ¬ file_encoding ∈ VALID_ENCODINGS then .error .invalidFileEncoding
  else
    match generate_invoic_segments cfg d edi_version character_set
          interchange_control_ref application_ref timestamp with
    | .error e => .error e
    | .ok segs => .ok (joinSep [Char.ofNat 10] segs ++ [Char.ofNat 10])

/-! ## Claim-support definitions -/

/-- Modelled from the spec: round-half-up of a decimal scaled to p
fractional digits (ties away from zero on the non-negative values the
program formats), for comparison with the rounding the code performs. -/
def spec_scaledHalfUp (d : Dec) (p : Nat) : Int :=
  let k : Int := d.e + p
  if 0 ≤ k then d.c * 10 ^ k.toNat
  else
    let m : Int := 10 ^ (-k).toNat
    let q := Int.fdiv d.c m
    let r := Int.fmod d.c m
    if 2 * r < m then q else q + 1

/-- Modelled from the spec: the segment builder the spec describes,
which rejects a rendered segment longer than the configured maximum
segment length, reporting the first 100 characters and the length.
The code has no such limit; this definition exists only to state that
difference. -/
def spec_build_segment_limited (max_segment_length : Nat) (cfg : GenCfg)
    (segment_id : Str) (elements : List Str) : Except (Str × Nat) Str :=
  let s := build_segment cfg segment_id elements
  if max_segment_length < s.length then .error (s.take 100, s.length)
  else .ok s

/-- The exact rational sum of quantity times price over the items (the
sum the claims compare the accumulated subtotal against), parsing the
sanitized fields the way _process_items does. -/
def sum_line_totals : List Item → Option Rat
  | [] => some 0
  | it :: rest =>
    match pyDecParse (sanitize_value it.quantity), pyDecParse (sanitize_value it.price),
          sum_line_totals rest with
    | some q, some p, some s => some (q.toRat * p.toRat + s)
    | _, _, _ => none

/-- A segment is an item-identification segment when it starts with
the LIN tag. -/
def isLIN (s : Str) : Bool := s.take 3 = str "LIN"

/-- A segment is a monetary segment when it starts with the MOA tag. -/
def isMOA (s : Str) : Bool := s.take 3 = str "MOA"

/-- A control character (the claims' 0x00-0x1F and 0x7F range). -/
def isCtl (c : Char) : Bool := c.toNat ≤ 31 ∨ c.toNat = 127

/-- The control character U+0001 used as a concrete specimen. -/
def ctl : Char := Char.ofNat 1

/-- A minimal valid invoice record: buyer and seller, one line item of
ten units at 25.50, no optional fields. -/
def d1 : InvoiceData :=
  { message_ref := str "INV1", invoice_number := str "INV1",
    invoice_date := str "20250322",
    parties := [⟨str "BY", str "123456789", none, none, none, none⟩,
                ⟨str "SU", str "987654321", none, none, none, none⟩],
    items := [⟨str "ABC", str "WIDGET", str "10", str "25.50", none, none⟩] }

/-- d1 with a control character embedded in the invoice number. -/
def d3 : InvoiceData :=
  { d1 with invoice_number := str "A" ++ [ctl] ++ str "B" }

/-- d1 with one unit priced 2.005: the exact subtotal 2.005 rounds to
2.00 under half-even and to 2.01 under half-up. -/
def d5 : InvoiceData :=
  { d1 with items := [⟨str "ABC", str "WIDGET", str "1", str "2.005", none, none⟩] }

/-- A single item with integer quantity and price, for witnesses. -/
def item5w : Item := ⟨str "ABC", str "WIDGET", str "2", str "3", none, none⟩

/-- d1 with payment terms whose due date equals the invoice date. -/
def d8 : InvoiceData :=
  { d1 with payment_terms := some ⟨some (str "20250322"), some (str "5")⟩ }

/-- d1 with payment terms whose due date is one day after the invoice
date. -/
def d8b : InvoiceData :=
  { d1 with payment_terms := some ⟨some (str "20250323"), some (str "5")⟩ }

/-- d1 with a zero-quantity item (and a zero-price companion). -/
def d9 : InvoiceData :=
  { d1 with items := [⟨str "ABC", str "WIDGET", str "0", str "25.50", none, none⟩,
                      ⟨str "DEF", str "GADGET", str "1", str "0", none, none⟩] }

/-- A record whose parties carry a duplicated qualifier (IV twice) but
lack the required BY and SU qualifiers. -/
def d10 : InvoiceData :=
  { message_ref := str "INV1", invoice_number := str "INV1",
    invoice_date := str "20250322",
    parties := [⟨str "IV", str "111", none, none, none, none⟩,
                ⟨str "IV", str "222", none, none, none, none⟩,
                ⟨str "DP", str "333", none, none, none, none⟩],
    items := [⟨str "ABC", str "WIDGET", str "10", str "25.50", none, none⟩] }

/-- A record with BY, SU present and the SU qualifier duplicated. -/
def d10w : InvoiceData :=
  { d1 with parties := [⟨str "BY", str "111", none, none, none, none⟩,
                        ⟨str "SU", str "222", none, none, none, none⟩,
                        ⟨str "SU", str "333", none, none, none, none⟩] }

/-- The segment list generate_invoic builds for d1 at timestamp
250322:1200 (checked by evaluation in the claim theorems). -/
def segs1 : List Str :=
  [str "UNB+UNOC:3+PYEDIFACT:INV1+RECEIVER:001+250322:1200+INV1+1:UNOA" ++ [apos],
   str "UNH+INV1+INVOIC:D:96A:UN:UNOA" ++ [apos],
   str "BGM+380+INV1+9" ++ [apos],
   str "DTM+137:20250322:102" ++ [apos],
   str "NAD+BY+123456789+91+" ++ [apos],
   str "NAD+SU+987654321+91+" ++ [apos],
   str "LIN+1++ABC:EN" ++ [apos],
   str "IMD+F++++WIDGET" ++ [apos],
   str "QTY+47:10:EA" ++ [apos],
   str "PRI+AAA:25.50:EA" ++ [apos],
   str "MOA+86:255.00" ++ [apos],
   str "MOA+176:0.00" ++ [apos],
   str "MOA+9:255.00" ++ [apos],
   str "UNT+14+INV1" ++ [apos],
   str "UNZ+1+INV1" ++ [apos]]

/-- The item segments _process_items builds for item5w. -/
def segs5w : List Str :=
  [str "LIN+1++ABC:EN" ++ [apos],
   str "IMD+F++++WIDGET" ++ [apos],
   str "QTY+47:2:EA" ++ [apos],
   str "PRI+AAA:3.00:EA" ++ [apos]]

/-- The per-character behaviour of _escape_segment_value under the
default configuration: the release character is doubled, and the
terminator, data separator, component separator and the space are each
prefixed with one release character; everything else is unchanged. -/
def escChar (c : Char) : Str :=
  if c = qmark then [qmark, qmark]
  else if c = apos then [qmark, apos]
  else if c = '+' then [qmark, '+']
  else if c = ':' then [qmark, ':']
  else if c = ' ' then [qmark, ' ']
  else [c]

/-! ## Helper lemmas: string transforms -/

theorem cmap_append (f : Char → Str) (a b : Str) :
    cmap f (a ++ b) = cmap f a ++ cmap f b := by
  induction a with
  | nil => rfl
  | cons c cs ih => simp [cmap, ih]

theorem cmap_cmap (f g : Char → Str) (l : Str) :
    cmap g (cmap f l) = cmap (fun c => cmap g (f c)) l := by
  induction l with
  | nil => rfl
  | cons c cs ih => simp [cmap, cmap_append, ih]

theorem cmap_congr {f g : Char → Str} (h : ∀ c, f c = g c) (l : Str) :
    cmap f l = cmap g l := by
  induction l with
  | nil => rfl
  | cons c cs ih => simp [cmap, h c, ih]

/-- A single-character str.replace is a per-character map. -/
theorem replaceAux_single (p : Char) (r : Str) :
    ∀ (f : Nat) (l : Str), l.length ≤ f →
      replaceAux [p] r f l = cmap (fun c => if c = p then r else [c]) l := by
  intro f l
  induction l generalizing f with
  | nil => intro _; cases f <;> rfl
  | cons c cs ih =>
    intro hf
    cases f with
    | zero => simp at hf
    | succ f =>
      have hcs : cs.length ≤ f := by simpa using hf
      by_cases hc : c = p
      · subst hc
        simp [replaceAux, List.isPrefixOf, cmap, ih f hcs]
      · simp [replaceAux, List.isPrefixOf, cmap, hc, Ne.symm hc, ih f hcs]

theorem pyReplace_single (l : Str) (p : Char) (r : Str) :
    pyReplace l [p] r = cmap (fun c => if c = p then r else [c]) l := by
  simp [pyReplace]
  exact replaceAux_single p r l.length l le_rfl

theorem escape_cfg0_eq (v : Str) :
    escape_segment_value cfg0 v = cmap escChar v := by
  show pyReplace (pyReplace (pyReplace (pyReplace (pyReplace v
      [qmark] [qmark, qmark]) [apos] [qmark, apos]) ['+'] [qmark, '+'])
      [':'] [qmark, ':']) [' '] [qmark, ' '] = cmap escChar v
  rw [pyReplace_single, pyReplace_single, pyReplace_single, pyReplace_single,
    pyReplace_single, cmap_cmap, cmap_cmap, cmap_cmap, cmap_cmap]
  refine cmap_congr (fun c => ?_) v
  by_cases h1 : c = qmark
  · subst h1; decide
  · by_cases h2 : c = apos
    · subst h2; decide
    · by_cases h3 : c = '+'
      · subst h3; decide
      · by_cases h4 : c = ':'
        · subst h4; decide
        · by_cases h5 : c = ' '
          · subst h5; decide
          · simp [escChar, cmap, h1, h2, h3, h4, h5]

/-! ## Helper lemmas: lists -/

theorem mem_dropWhile_of_mem {p : Char → Bool} {c : Char} :
    ∀ {l : Str}, c ∈ l → p c = false → c ∈ l.dropWhile p := by
  intro l
  induction l with
  | nil => intro h _; exact absurd h (List.not_mem_nil c)
  | cons a as ih =>
    intro hc hp
    by_cases ha : p a = true
    · rw [List.dropWhile_cons_of_pos ha]
      rcases List.mem_cons.mp hc with h | h
      · subst h; rw [hp] at ha; exact absurd ha (by simp)
      · exact ih h hp
    · rw [List.dropWhile_cons_of_neg ha]
      exact hc

theorem mem_pystrip_of_mem {c : Char} {v : Str} (hc : c ∈ v)
    (hp : pyIsSpace c = false) : c ∈ pystrip v := by
  unfold pystrip
  rw [List.mem_reverse]
  refine mem_dropWhile_of_mem ?_ hp
  rw [List.mem_reverse]
  exact mem_dropWhile_of_mem hc hp

theorem mem_cmap_self {f : Char → Str} {c : Char} (hf : c ∈ f c) :
    ∀ {l : Str}, c ∈ l → c ∈ cmap f l := by
  intro l
  induction l with
  | nil => intro h; exact absurd h (List.not_mem_nil c)
  | cons a as ih =>
    intro hc
    rcases List.mem_cons.mp hc with h | h
    · subst h; exact List.mem_append.mpr (Or.inl hf)
    · exact List.mem_append.mpr (Or.inr (ih h))

theorem joinSep_length (sep : Str) :
    ∀ l : List Str, (joinSep sep l).length =
      (l.map List.length).sum + sep.length * (l.length - 1) := by
  intro l
  induction l with
  | nil => simp [joinSep]
  | cons x xs ih =>
    cases xs with
    | nil => simp [joinSep]
    | cons y ys =>
      simp only [joinSep, List.length_append, List.map_cons, List.sum_cons,
        List.length_cons, Nat.add_sub_cancel, Nat.mul_succ] at ih ⊢
      omega

theorem getElem?_append_two {α : Type} (a : List α) (u z : α) :
    (a ++ [u, z])[a.length]? = some u := by
  induction a with
  | nil => rfl
  | cons x xs ih => simpa using ih

/-! ## Helper lemmas: decimal values -/

theorem Dec.toRat_def (d : Dec) : d.toRat = (d.c : Rat) * (10 : Rat) ^ d.e := by
  unfold Dec.toRat
  by_cases h : 0 ≤ d.e
  · rw [if_pos h]
    push_cast
    rw [← zpow_natCast (10 : Rat), Int.toNat_of_nonneg h]
  · rw [if_neg h, Rat.mkRat_eq_div]
    push_cast
    rw [← zpow_natCast (10 : Rat), Int.toNat_of_nonneg (by omega : (0 : Int) ≤ -d.e),
      div_eq_mul_inv, ← zpow_neg, neg_neg]

theorem Dec.add_toRat (a b : Dec) : (a.add b).toRat = a.toRat + b.toRat := by
  have hten : (10 : Rat) ≠ 0 := by norm_num
  rw [Dec.toRat_def, Dec.toRat_def, Dec.toRat_def]
  show ((a.c * (10 : Int) ^ (a.e - min a.e b.e).toNat +
      b.c * (10 : Int) ^ (b.e - min a.e b.e).toNat : Int) : Rat) *
      (10 : Rat) ^ (min a.e b.e) = _
  push_cast
  rw [← zpow_natCast (10 : Rat) (a.e - min a.e b.e).toNat,
    ← zpow_natCast (10 : Rat) (b.e - min a.e b.e).toNat,
    Int.toNat_of_nonneg (by omega : (0 : Int) ≤ a.e - min a.e b.e),
    Int.toNat_of_nonneg (by omega : (0 : Int) ≤ b.e - min a.e b.e),
    add_mul, mul_assoc, mul_assoc, ← zpow_add₀ hten, ← zpow_add₀ hten,
    sub_add_cancel, sub_add_cancel]

theorem Dec.mul_toRat (a b : Dec) : (a.mul b).toRat = a.toRat * b.toRat := by
  have hten : (10 : Rat) ≠ 0 := by norm_num
  rw [Dec.toRat_def, Dec.toRat_def, Dec.toRat_def]
  show ((a.c * b.c : Int) : Rat) * (10 : Rat) ^ (a.e + b.e) = _
  push_cast
  rw [zpow_add₀ hten]
  ring

theorem dec000_toRat : dec000.toRat = 0 := by decide

/-- The executable rounding used by Dec.formatFixed agrees with the
half-even rounding of the rational value. -/
theorem Dec.scaledHalfEven_eq (d : Dec) (p : Nat) :
    d.scaledHalfEven p = ratScaledHalfEven d.toRat p := by
  have hten : (10 : Rat) ≠ 0 := by norm_num
  have hx : d.toRat * (10 : Rat) ^ p = (d.c : Rat) * (10 : Rat) ^ (d.e + (p : Int)) := by
    rw [Dec.toRat_def, zpow_add₀ hten, mul_assoc, zpow_natCast]
  simp only [Dec.scaledHalfEven, ratScaledHalfEven]
  by_cases hk : 0 ≤ d.e + (p : Int)
  · have hInt : d.toRat * (10 : Rat) ^ p =
        ((d.c * 10 ^ (d.e + (p : Int)).toNat : Int) : Rat) := by
      rw [hx]
      push_cast
      rw [← zpow_natCast (10 : Rat), Int.toNat_of_nonneg hk]
    rw [if_pos hk, hInt, Int.floor_intCast, sub_self,
      if_pos (by norm_num : (0 : Rat) < 1 / 2)]
  · rw [if_neg hk]
    have hkneg : d.e + (p : Int) < 0 := by omega
    set m : Int := 10 ^ (-(d.e + (p : Int))).toNat with hmdef
    have hm : 0 < m := pow_pos (by norm_num) _
    have hmr : (0 : Rat) < (m : Rat) := by exact_mod_cast hm
    have hxm : d.toRat * (10 : Rat) ^ p = (d.c : Rat) / (m : Rat) := by
      rw [hx, hmdef]
      push_cast
      rw [← zpow_natCast (10 : Rat) (-(d.e + (p : Int))).toNat,
        Int.toNat_of_nonneg (by omega : (0 : Int) ≤ -(d.e + (p : Int))),
        div_eq_mul_inv, ← zpow_neg, neg_neg]
    rw [Int.fdiv_eq_ediv _ (le_of_lt hm), Int.fmod_eq_emod _ (le_of_lt hm)]
    set q : Int := d.c / m with hqdef
    set r : Int := d.c % m with hrdef
    have hr0 : 0 ≤ r := Int.emod_nonneg _ (ne_of_gt hm)
    have hrm : r < m := Int.emod_lt_of_pos _ hm
    have hqr : m * q + r = d.c := Int.ediv_add_emod d.c m
    have hfloor : ⌊d.toRat * (10 : Rat) ^ p⌋ = q := by
      rw [hxm, Int.floor_eq_iff]
      constructor
      · rw [le_div_iff₀ hmr]
        have : q * m ≤ d.c := by nlinarith
        exact_mod_cast this
      · rw [div_lt_iff₀ hmr]
        have : d.c < (q + 1) * m := by nlinarith
        exact_mod_cast this
    have hfrac : d.toRat * (10 : Rat) ^ p - (q : Rat) = (r : Rat) / (m : Rat) := by
      rw [hxm]
      field_simp
      have : (d.c : Rat) = (m : Rat) * (q : Rat) + (r : Rat) := by exact_mod_cast hqr.symm
      linarith
    rw [hfloor, hfrac]
    by_cases h1 : 2 * r < m
    · rw [if_pos h1, if_pos]
      rw [div_lt_iff₀ hmr]
      have : (2 : Rat) * (r : Rat) < (m : Rat) := by exact_mod_cast h1
      linarith
    · by_cases h2 : m < 2 * r
      · have hge : ¬ ((r : Rat) / (m : Rat) < 1 / 2) := by
          rw [not_lt, le_div_iff₀ hmr]
          have : (m : Rat) < 2 * (r : Rat) := by exact_mod_cast h2
          linarith
        have hgt : 1 / 2 < (r : Rat) / (m : Rat) := by
          rw [lt_div_iff₀ hmr]
          have : (m : Rat) < 2 * (r : Rat) := by exact_mod_cast h2
          linarith
        rw [if_neg h1, if_pos h2, if_neg hge, if_pos hgt]
      · have heq : (r : Rat) / (m : Rat) = 1 / 2 := by
          have h2r : 2 * r = m := by omega
          have hm2 : (m : Rat) = 2 * (r : Rat) := by exact_mod_cast h2r.symm
          have hrpos : (0 : Rat) < (r : Rat) := by
            have : 0 < r := by omega
            exact_mod_cast this
          rw [hm2, div_eq_div_iff (by linarith) (by norm_num)]
          ring
        rw [if_neg h1, if_neg h2, heq,
          if_neg (by norm_num : ¬ ((1 : Rat) / 2 < 1 / 2)),
          if_neg (by norm_num : ¬ ((1 : Rat) / 2 < 1 / 2))]


/-- Peeling one raise-check off a validator chain: if the whole chain
returned ok, the guard was false and the rest returned ok. -/
theorem ite_error_ok {c : Prop} [Decidable c] {e : GenError} {rest : Except GenError Unit}
    (h : (if c then Except.error e else rest) = .ok ()) : ¬ c ∧ rest = .ok () := by
  by_cases hc : c
  · rw [if_pos hc] at h
    exact Except.noConfusion h
  · rw [if_neg hc] at h
    exact ⟨hc, h⟩

/-! ## Claims -/

/-- C2 counterexample: the escape operation also modifies the space
character, which is neither the release character nor any configured
separator (and the configuration has no repetition separator), so it
does not pass through unchanged as the claim states. -/
theorem C2_counterexample :
    escape_segment_value cfg0 [' '] = [qmark, ' '] ∧
    escape_segment_value cfg0 [' '] ≠ [' '] ∧
    ' ' ≠ qmark ∧ ' ' ∉ cfg0.segment_terminator ∧
    ' ' ∉ cfg0.data_separator ∧ ' ' ∉ cfg0.component_separator := by decide

/-- C2 (amended): under the default configuration the escape operation
acts character by character: the release character is doubled; the
terminator, data separator and component separator are each prefixed
with one release character; the space character is also prefixed; there
is no repetition-separator case; every other character passes through
unchanged. -/
theorem C2_escape_characterization (v : Str) :
    escape_segment_value cfg0 v = cmap escChar v ∧
    escChar qmark = [qmark, qmark] ∧
    escChar apos = [qmark, apos] ∧
    escChar '+' = [qmark, '+'] ∧
    escChar ':' = [qmark, ':'] ∧
    escChar ' ' = [qmark, ' '] ∧
    (∀ c : Char, c ≠ qmark → c ≠ apos → c ≠ '+' → c ≠ ':' → c ≠ ' ' →
      escChar c = [c]) := by
  refine ⟨escape_cfg0_eq v, by decide, by decide, by decide, by decide, by decide, ?_⟩
  intro c h1 h2 h3 h4 h5
  simp [escChar, h1, h2, h3, h4, h5]

/-- C2 witness: the characterization applied at concrete inputs. -/
theorem C2_witness :
    escape_segment_value cfg0 (str "A") = cmap escChar (str "A") ∧ escChar 'A' = ['A'] :=
  ⟨(C2_escape_characterization (str "A")).1,
   (C2_escape_characterization (str "A")).2.2.2.2.2.2 'A'
     (by decide) (by decide) (by decide) (by decide) (by decide)⟩

set_option maxRecDepth 50000 in
/-- C3 counterexample: an interior control character (U+0001) survives
sanitize_value unchanged, and survives all the way into the generated
message text, contradicting the claim that control characters are
dropped. -/
theorem C3_counterexample :
    sanitize_value (str "A" ++ [ctl] ++ str "B") = str "A" ++ [ctl] ++ str "B" ∧
    ctl ∈ sanitize_value (str "A" ++ [ctl] ++ str "B") ∧
    isCtl ctl = true ∧
    (generate_invoic cfg0 d3 (str "D:96A:UN") (str "UNOA") (str "utf-8") none none
        (str "250322:1200")).map (fun out => out.contains ctl) = .ok true := by decide

/-- C3 (amended): sanitization removes only leading and trailing
Python whitespace; any non-whitespace character, control characters
included, survives sanitization wherever it occurs, and any character
the escape pass leaves alone also survives into the escaped value. -/
theorem C3_control_chars_survive (v : Str) (c : Char) (hv : c ∈ v)
    (hs : pyIsSpace c = false)
    (h1 : c ≠ qmark) (h2 : c ≠ apos) (h3 : c ≠ '+') (h4 : c ≠ ':') :
    c ∈ sanitize_value v ∧ c ∈ escape_segment_value cfg0 (sanitize_value v) := by
  have hm : c ∈ sanitize_value v := by
    simp only [sanitize_value]
    exact mem_pystrip_of_mem hv hs
  refine ⟨hm, ?_⟩
  rw [escape_cfg0_eq]
  refine mem_cmap_self ?_ hm
  have h5 : c ≠ ' ' := by
    intro h; rw [h] at hs; exact absurd hs (by decide)
  simp [escChar, h1, h2, h3, h4, h5]

/-- C3 witness: the survival theorem applied to U+0001 inside a
concrete value. -/
theorem C3_witness :
    ctl ∈ sanitize_value (str "A" ++ [ctl] ++ str "B") ∧
    ctl ∈ escape_segment_value cfg0 (sanitize_value (str "A" ++ [ctl] ++ str "B")) :=
  C3_control_chars_survive (str "A" ++ [ctl] ++ str "B") ctl
    (by decide) (by decide) (by decide) (by decide) (by decide) (by decide)

set_option maxRecDepth 50000 in
/-- C4 counterexample: a rendered segment of length 305 (well past any
plausible maximum, e.g. 247) is returned by the code unchanged, while
the builder the spec describes would reject it; the code has no
maximum-segment-length configuration at all. -/
theorem C4_counterexample :
    (build_segment cfg0 (str "FTX") [List.replicate 300 'X']).length = 305 ∧
    247 < 305 ∧
    spec_build_segment_limited 247 cfg0 (str "FTX") [List.replicate 300 'X'] =
      .error ((build_segment cfg0 (str "FTX") [List.replicate 300 'X']).take 100, 305) ∧
    spec_build_segment_limited 247 cfg0 (str "FTX") [List.replicate 300 'X'] ≠
      .ok (build_segment cfg0 (str "FTX") [List.replicate 300 'X']) := by decide

/-- C4 (amended): the segment builder is total and performs no length
check: for every tag and element list it returns the rendered segment,
whose length grows without bound with the inputs. -/
theorem C4_build_segment_total (cfg : GenCfg) (segment_id : Str) (elements : List Str) :
    (build_segment cfg segment_id elements).length =
      segment_id.length + cfg.data_separator.length +
        ((elements.map List.length).sum +
          cfg.data_separator.length * (elements.length - 1)) +
      cfg.segment_terminator.length := by
  simp [build_segment, joinSep_length]
  omega

/-- C6 counterexample: for a record with no tax rate anywhere, the
monetary summary still consists of three MOA segments (subtotal, zero
tax total, grand total), not the single total segment the claim
states. -/
theorem C6_counterexample :
    d1.items.all (fun it => it.tax_rate = none) = true ∧
    (generate_invoic_segments cfg0 d1 (str "D:96A:UN") (str "UNOA") none none
        (str "250322:1200")).map (fun L => L.countP isMOA) = .ok 3 ∧
    (3 : Nat) ≠ 1 := by decide

/-- C6 (amended): the monetary summary always consists of exactly
three segments, with or without a tax rate: the subtotal (qualifier
86), the tax total (176, which is 0.00 when no item carries a positive
tax rate), and the grand total (9), whose value is the exact decimal
sum of the subtotal and the tax total. -/
theorem C6_monetary_always_three (cfg : GenCfg) (total_amount total_tax : Dec) :
    (generate_monetary_segments cfg total_amount total_tax).length = 3 ∧
    (generate_monetary_segments cfg total_amount total_tax)[2]? =
      some (build_segment cfg (str "MOA")
        [str "9" ++ cfg.component_separator ++
          (Dec.add total_amount total_tax).formatFixed cfg.precision]) ∧
    (Dec.add total_amount total_tax).toRat = total_amount.toRat + total_tax.toRat :=
  ⟨rfl, rfl, Dec.add_toRat total_amount total_tax⟩


/-- C1 counterexample: for the record d1 the generated message has 15
segments; the UNT count element is 14 (the code counts every segment
including the interchange header UNB, plus the trailer), while the
count the claim describes — the segments from the message header UNH
through the last segment preceding the trailer, inclusive (12 of
them), plus one for the trailer — is 13. -/
theorem C1_counterexample :
    (generate_invoic_segments cfg0 d1 (str "D:96A:UN") (str "UNOA") none none
        (str "250322:1200")).map (fun L =>
          (L.length, ((L.drop 1).take (L.length - 3)).length, L[L.length - 2]?)) =
      .ok (15, 12, some (build_segment cfg0 (str "UNT") [natToStr 14, str "INV1"])) ∧
    12 + 1 = 13 ∧ (14 : Nat) ≠ 13 := by decide

/-- C1 (amended): the UNT count element equals the number of segments
from the interchange header (UNB) through the last segment preceding
the trailer, inclusive, plus one for the trailer itself — one more
than the claim as stated, because the count includes UNB. -/
theorem C1_unt_count (cfg : GenCfg) (d : InvoiceData) (ev cs : Str)
    (icr ar : Option Str) (ts : Str) (L : List Str)
    (h : generate_invoic_segments cfg d ev cs icr ar ts = .ok L) :
    2 ≤ L.length ∧
    L[L.length - 2]? = some (build_segment cfg (str "UNT")
      [natToStr (L.length - 2 + 1),
       escape_segment_value cfg (sanitize_value d.message_ref)]) := by
  unfold generate_invoic_segments at h
  split at h
  · exact Except.noConfusion h
  · split at h
    · exact Except.noConfusion h
    · split at h
      · exact Except.noConfusion h
      · split at h
        · exact Except.noConfusion h
        · injection h with h
          subst h
          simp only [append_trailers, List.length_append, List.length_cons,
            List.length_nil, Nat.add_sub_cancel]
          refine ⟨by omega, getElem?_append_two _ _ _⟩

/-- C1 witness: the amended count theorem applied to d1. -/
theorem C1_witness :
    2 ≤ segs1.length ∧
    segs1[segs1.length - 2]? = some (build_segment cfg0 (str "UNT")
      [natToStr (segs1.length - 2 + 1),
       escape_segment_value cfg0 (sanitize_value d1.message_ref)]) :=
  C1_unt_count cfg0 d1 (str "D:96A:UN") (str "UNOA") none none (str "250322:1200")
    segs1 (by decide)

/-- C7 counterexample: with the message reference and the interchange
control reference both fixed, two runs at different clock readings
both succeed and produce different output text, so generation is not
deterministic in the reference values alone. -/
theorem C7_counterexample :
    (generate_invoic cfg0 d1 (str "D:96A:UN") (str "UNOA") (str "utf-8")
        (some (str "ICR1")) none (str "250322:1200")).toOption ≠ none ∧
    (generate_invoic cfg0 d1 (str "D:96A:UN") (str "UNOA") (str "utf-8")
        (some (str "ICR1")) none (str "250322:1201")).toOption ≠ none ∧
    generate_invoic cfg0 d1 (str "D:96A:UN") (str "UNOA") (str "utf-8")
        (some (str "ICR1")) none (str "250322:1200") ≠
      generate_invoic cfg0 d1 (str "D:96A:UN") (str "UNOA") (str "utf-8")
        (some (str "ICR1")) none (str "250322:1201") := by decide

/-- C7 (amended): generation is a pure function of the record, the
reference values and the clock reading, and the clock reading enters
only the interchange header: two runs that differ only in the
timestamp agree on every segment after the first. -/
theorem C7_deterministic_modulo_unb (cfg : GenCfg) (d : InvoiceData) (ev cs : Str)
    (icr ar : Option Str) (t1 t2 : Str) :
    (generate_invoic_segments cfg d ev cs icr ar t1).map (List.drop 1) =
    (generate_invoic_segments cfg d ev cs icr ar t2).map (List.drop 1) := by
  unfold generate_invoic_segments
  cases hval : validate_invoice_data cs d with
  | error e => rfl
  | ok u =>
    cases u
    cases hps : generate_party_segments cfg cs d.parties with
    | error e => rfl
    | ok partySegs =>
      cases hpi : process_items cfg d.items with
      | error e => rfl
      | ok tri =>
        obtain ⟨total_amount, total_tax, itemSegs⟩ := tri
        cases hal : (match d.allowances_charges with
                     | some als => generate_allowance_segments cfg als
                     | none => .ok []) with
        | error e => rfl
        | ok allowSegs =>
          simp only [Except.map]
          unfold append_trailers invoic_body
          simp [List.drop_append_of_le_length, List.length_append]


/-- C8 counterexample: the record d8 has its due date equal to its
invoice date and yet passes validation (the code never compares the
two dates); the one-day-later record d8b also passes. -/
theorem C8_counterexample :
    d8.payment_terms = some ⟨some d8.invoice_date, some (str "5")⟩ ∧
    validate_invoice_data (str "UNOA") d8 = .ok () ∧
    validate_invoice_data (str "UNOA") d8b = .ok () := by decide

/-- C8 (amended): the due date is checked only for valid 8-digit
calendar-date format; its ordering relative to the invoice date is
never consulted, so validation gives the same verdict for any two
well-formed due dates (equal to the invoice date, one day later, or
any other). -/
theorem C8_due_date_not_compared (mr inum idate : Str) (cur refr : Option Str)
    (ps : List Party) (its : List Item) (meth : Option Str)
    (alw : Option (List AllowanceCharge)) (cs : Str) (t1 t2 : Str)
    (h1 : digits8 t1 = true) (h2 : validate_date t1 = true)
    (h3 : digits8 t2 = true) (h4 : validate_date t2 = true) :
    validate_invoice_data cs ⟨mr, inum, idate, cur, refr, ps, its, some ⟨some t1, meth⟩, alw⟩ =
    validate_invoice_data cs ⟨mr, inum, idate, cur, refr, ps, its, some ⟨some t2, meth⟩, alw⟩ := by
  have hs : jsonSchemaOk ⟨mr, inum, idate, cur, refr, ps, its, some ⟨some t1, meth⟩, alw⟩ =
      jsonSchemaOk ⟨mr, inum, idate, cur, refr, ps, its, some ⟨some t2, meth⟩, alw⟩ := by
    simp [jsonSchemaOk, h1, h3]
  have hpb : validate_payment_block ⟨some t1, meth⟩ =
      validate_payment_block ⟨some t2, meth⟩ := by
    simp [validate_payment_block, h2, h4]
  simp only [validate_invoice_data, sanitized_qualifiers, hs, hpb]

/-- C8 witness: the irrelevance theorem applied to the fields of d8,
moving the due date from the invoice date itself to one day later. -/
theorem C8_witness :
    validate_invoice_data (str "UNOA")
      ⟨str "INV1", str "INV1", str "20250322", none, none,
       [⟨str "BY", str "123456789", none, none, none, none⟩,
        ⟨str "SU", str "987654321", none, none, none, none⟩],
       [⟨str "ABC", str "WIDGET", str "10", str "25.50", none, none⟩],
       some ⟨some (str "20250322"), some (str "5")⟩, none⟩ =
    validate_invoice_data (str "UNOA")
      ⟨str "INV1", str "INV1", str "20250322", none, none,
       [⟨str "BY", str "123456789", none, none, none, none⟩,
        ⟨str "SU", str "987654321", none, none, none, none⟩],
       [⟨str "ABC", str "WIDGET", str "10", str "25.50", none, none⟩],
       some ⟨some (str "20250323"), some (str "5")⟩, none⟩ :=
  C8_due_date_not_compared (str "INV1") (str "INV1") (str "20250322") none none
    _ _ (some (str "5")) none (str "UNOA") (str "20250322") (str "20250323")
    (by decide) (by decide) (by decide) (by decide)

/-- C9 counterexample: a quantity of exactly 0 is accepted: the
positive-number validator returns true on "0", the item validator
accepts an item with quantity "0", and a whole record containing such
an item (d9, which also has a zero-price item) passes validation. -/
theorem C9_counterexample :
    validate_positive_number (str "0") (some MAX_QUANTITY) = true ∧
    validate_item (str "UNOA") 1 ⟨str "ABC", str "WIDGET", str "0", str "25.50", none, none⟩ =
      .ok () ∧
    validate_invoice_data (str "UNOA") d9 = .ok () := by decide

/-- C9 (amended): quantity and price are validated with the same
non-negativity test: zero is accepted for both, so any item passing
validation still passes with its quantity, or its price, replaced by
0. -/
theorem C9_zero_accepted (cs : Str) (idx : Nat) (item : Item)
    (h : validate_item cs idx item = .ok ()) :
    validate_item cs idx { item with quantity := str "0" } = .ok () ∧
    validate_item cs idx { item with price := str "0" } = .ok () := by
  simp only [validate_item] at h
  obtain ⟨c1, h⟩ := ite_error_ok h
  obtain ⟨c2, h⟩ := ite_error_ok h
  obtain ⟨c3, h⟩ := ite_error_ok h
  obtain ⟨c4, h⟩ := ite_error_ok h
  obtain ⟨c5, h⟩ := ite_error_ok h
  obtain ⟨c6, h⟩ := ite_error_ok h
  obtain ⟨c7, h⟩ := ite_error_ok h
  obtain ⟨c8, h⟩ := ite_error_ok h
  obtain ⟨c9, h⟩ := ite_error_ok h
  constructor
  · simp only [validate_item]
    rw [if_neg c1, if_neg c2, if_neg c3, if_neg c4, if_neg c5, if_neg c6,
      if_neg (by decide :
        ¬¬ validate_positive_number (str "0") (some MAX_QUANTITY) = true),
      if_neg c8, if_neg c9]
    exact h
  · simp only [validate_item]
    rw [if_neg c1, if_neg c2, if_neg c3, if_neg c4, if_neg c5, if_neg c6, if_neg c7,
      if_neg (by decide :
        ¬¬ validate_positive_number (str "0") (some MAX_PRICE) = true),
      if_neg c9]
    exact h

/-- C9 witness: the zero-acceptance theorem applied to a concrete
valid item. -/
theorem C9_witness :
    validate_item (str "UNOA") 1 { item5w with quantity := str "0" } = .ok () ∧
    validate_item (str "UNOA") 1 { item5w with price := str "0" } = .ok () :=
  C9_zero_accepted (str "UNOA") 1 item5w (by decide)

/-- C10 counterexample: the record d10 has two parties whose
qualifiers are equal after trimming and upper-casing (IV twice), yet
generation raises the missing-required-qualifiers error, not the
duplicate-party-qualifiers error, because the missing BY/SU check runs
first. -/
theorem C10_counterexample :
    (sanitized_qualifiers d10).eraseDups.length ≠ d10.parties.length ∧
    validate_invoice_data (str "UNOA") d10 = .error .missingPartyQualifiers ∧
    generate_invoic cfg0 d10 (str "D:96A:UN") (str "UNOA") (str "utf-8") none none
      (str "250322:1200") = .error .missingPartyQualifiers ∧
    GenError.missingPartyQualifiers ≠ GenError.duplicatePartyQualifiers := by decide

/-- C10 (amended): once the earlier checks pass — the JSON-schema
check, the message-reference character checks, the invoice-date check
and the required BY/SU membership check — a duplicated sanitized
qualifier makes validation fail with the duplicate-party-qualifiers
error before any segment is generated. -/
theorem C10_duplicate_error_when_reachable (cs : Str) (d : InvoiceData)
    (h1 : jsonSchemaOk d = true)
    (h2 : alphanumeric_ok (sanitize_value d.message_ref) = true)
    (h3 : charset_ok cs (sanitize_value d.message_ref) = true)
    (h4 : validate_date d.invoice_date = true)
    (h5 : str "BY" ∈ sanitized_qualifiers d)
    (h6 : str "SU" ∈ sanitized_qualifiers d)
    (h7 : (sanitized_qualifiers d).eraseDups.length ≠ d.parties.length) :
    validate_invoice_data cs d = .error .duplicatePartyQualifiers := by
  have hp := of_decide_eq_true h1
  have hmr : ¬ d.message_ref = [] := by
    intro hx
    have := hp.1
    rw [hx] at this
    simp at this
  have hinum : ¬ d.invoice_number = [] := by
    intro hx
    have := hp.2.1
    rw [hx] at this
    simp at this
  have hidate : ¬ d.invoice_date = [] := by
    intro hx
    have := hp.2.2.1
    rw [hx] at this
    revert this
    decide
  have hps : ¬ d.parties = [] := by
    intro hx
    have := hp.2.2.2.2.2.1
    rw [hx] at this
    simp at this
  have hits : ¬ d.items = [] := by
    intro hx
    have := hp.2.2.2.2.2.2.2.1
    rw [hx] at this
    simp at this
  simp [validate_invoice_data, h1, h2, h3, h4, h5, h6, h7,
    hmr, hinum, hidate, hps, hits]

/-- C10 witness: the reachable-duplicate theorem applied to d10w,
which has BY, SU and a duplicated SU. -/
theorem C10_witness :
    validate_invoice_data (str "UNOA") d10w = .error .duplicatePartyQualifiers :=
  C10_duplicate_error_when_reachable (str "UNOA") d10w (by decide) (by decide)
    (by decide) (by decide) (by decide) (by decide) (by decide)


theorem isLIN_lin (cfg : GenCfg) (els : List Str) :
    isLIN (build_segment cfg (str "LIN") els) = true := rfl

theorem isLIN_imd (cfg : GenCfg) (els : List Str) :
    isLIN (build_segment cfg (str "IMD") els) = false := rfl

theorem isLIN_qty (cfg : GenCfg) (els : List Str) :
    isLIN (build_segment cfg (str "QTY") els) = false := rfl

theorem isLIN_pri (cfg : GenCfg) (els : List Str) :
    isLIN (build_segment cfg (str "PRI") els) = false := rfl

theorem isLIN_tax (cfg : GenCfg) (els : List Str) :
    isLIN (build_segment cfg (str "TAX") els) = false := rfl

theorem isLIN_moa (cfg : GenCfg) (els : List Str) :
    isLIN (build_segment cfg (str "MOA") els) = false := rfl

/-- The item loop produces exactly one LIN segment per item, and the
running amount accumulates the exact sum of the line totals. -/
theorem process_items_aux_count_sum (cfg : GenCfg) :
    ∀ (items : List Item) (i : Nat) (t0 x0 t x : Dec) (segs : List Str),
      process_items_aux cfg i t0 x0 items = .ok (t, x, segs) →
      segs.countP isLIN = items.length ∧
      ∀ S : Rat, sum_line_totals items = some S → t.toRat = t0.toRat + S := by
  intro items
  induction items with
  | nil =>
    intro i t0 x0 t x segs h
    simp only [process_items_aux, Except.ok.injEq, Prod.mk.injEq] at h
    obtain ⟨ht, _, hs⟩ := h
    subst ht
    subst hs
    refine ⟨by simp, ?_⟩
    intro S hS
    simp only [sum_line_totals, Option.some.injEq] at hS
    rw [← hS, add_zero]
  | cons item rest ih =>
    intro i t0 x0 t x segs h
    simp only [process_items_aux] at h
    cases hq : pyDecParse (sanitize_value item.quantity) with
    | none => rw [hq] at h; simp at h
    | some q =>
      cases hp : pyDecParse (sanitize_value item.price) with
      | none => rw [hq, hp] at h; simp at h
      | some p =>
        cases htr : pyDecParse (sanitize_value (item.tax_rate.getD (str "0"))) with
        | none => rw [hq, hp, htr] at h; simp at h
        | some tr =>
          rw [hq, hp, htr] at h
          simp only [] at h
          by_cases htax : Dec.lt ⟨0, 0⟩ tr = true
          · rw [if_pos htax] at h
            cases hrec : process_items_aux cfg (i + 1) (Dec.add t0 (Dec.mul p q))
                (Dec.add x0 ((Dec.mul (Dec.mul p q) tr).div100)) rest with
            | error e => rw [hrec] at h; exact Except.noConfusion h
            | ok res =>
              obtain ⟨t2, x2, segs2⟩ := res
              rw [hrec] at h
              simp only [Except.ok.injEq, Prod.mk.injEq] at h
              obtain ⟨ht2, hx2, hsegs⟩ := h
              subst ht2
              subst hsegs
              obtain ⟨ihc, ihs⟩ := ih (i + 1) (Dec.add t0 (Dec.mul p q)) _ _ _ _ hrec
              constructor
              · simp [List.countP_append, List.countP_cons, ihc,
                  isLIN_lin, isLIN_imd, isLIN_qty, isLIN_pri, isLIN_tax, isLIN_moa]
              · intro S hS
                simp only [sum_line_totals, hq, hp] at hS
                cases hrest : sum_line_totals rest with
                | none => rw [hrest] at hS; exact Option.noConfusion hS
                | some S2 =>
                  rw [hrest] at hS
                  simp only [Option.some.injEq] at hS
                  have := ihs S2 hrest
                  rw [this, Dec.add_toRat, Dec.mul_toRat, ← hS]
                  ring
          · rw [if_neg htax] at h
            cases hrec : process_items_aux cfg (i + 1) (Dec.add t0 (Dec.mul p q)) x0 rest with
            | error e => rw [hrec] at h; exact Except.noConfusion h
            | ok res =>
              obtain ⟨t2, x2, segs2⟩ := res
              rw [hrec] at h
              simp only [Except.ok.injEq, Prod.mk.injEq] at h
              obtain ⟨ht2, hx2, hsegs⟩ := h
              subst ht2
              subst hsegs
              obtain ⟨ihc, ihs⟩ := ih (i + 1) (Dec.add t0 (Dec.mul p q)) _ _ _ _ hrec
              constructor
              · simp [List.countP_append, List.countP_cons, ihc,
                  isLIN_lin, isLIN_imd, isLIN_qty, isLIN_pri, isLIN_tax, isLIN_moa]
              · intro S hS
                simp only [sum_line_totals, hq, hp] at hS
                cases hrest : sum_line_totals rest with
                | none => rw [hrest] at hS; exact Option.noConfusion hS
                | some S2 =>
                  rw [hrest] at hS
                  simp only [Option.some.injEq] at hS
                  have := ihs S2 hrest
                  rw [this, Dec.add_toRat, Dec.mul_toRat, ← hS]
                  ring


/-- C5 counterexample: for one unit at price 2.005 the exact subtotal
is 2.005; the code renders the subtotal segment with half-even
rounding as 2.00, while round_half_up as the claim states would give
2.01.  (The LIN-count half of the claim holds: one LIN segment.) -/
theorem C5_counterexample :
    (process_items cfg0 d5.items).map
        (fun tri => (tri.1, tri.2.1, tri.2.2.countP isLIN)) =
      .ok (⟨2005, -3⟩, ⟨0, -2⟩, 1) ∧
    sum_line_totals d5.items = some (Dec.toRat ⟨2005, -3⟩) ∧
    Dec.formatFixed ⟨2005, -3⟩ 2 = str "2.00" ∧
    (generate_monetary_segments cfg0 ⟨2005, -3⟩ ⟨0, -2⟩)[0]? =
      some (str "MOA+86:2.00" ++ [apos]) ∧
    formatScaled (spec_scaledHalfUp ⟨2005, -3⟩ 2) 2 = str "2.01" ∧
    str "2.00" ≠ str "2.01" := by
  refine ⟨by decide, ?_, by decide, by decide, by decide, by decide⟩
  have hq : pyDecParse (sanitize_value (str "1")) = some ⟨1, 0⟩ := by decide
  have hp : pyDecParse (sanitize_value (str "2.005")) = some ⟨2005, -3⟩ := by decide
  simp only [d5, d1, sum_line_totals, hq, hp, Option.some.injEq]
  rw [Dec.toRat_def, Dec.toRat_def]
  norm_num

/-- C5 (amended): a valid record with N items yields exactly N
item-identification segments in input order, and the subtotal segment
carries the exact sum of quantity times price rounded to the
configured precision with round-half-even (bankers rounding), not
round-half-up. -/
theorem C5_lin_count_and_subtotal (cfg : GenCfg) (items : List Item)
    (total_amount total_tax : Dec) (segs : List Str) (S : Rat)
    (h : process_items cfg items = .ok (total_amount, total_tax, segs))
    (hS : sum_line_totals items = some S) :
    segs.countP isLIN = items.length ∧
    total_amount.toRat = S ∧
    (generate_monetary_segments cfg total_amount total_tax)[0]? =
      some (build_segment cfg (str "MOA")
        [str "86" ++ cfg.component_separator ++
          formatScaled (ratScaledHalfEven S cfg.precision) cfg.precision]) := by
  obtain ⟨hc, hsum⟩ := process_items_aux_count_sum cfg items 1 dec000 dec000 _ _ _ h
  have ht : total_amount.toRat = S := by
    have := hsum S hS
    rwa [dec000_toRat, zero_add] at this
  refine ⟨hc, ht, ?_⟩
  have h0 : (generate_monetary_segments cfg total_amount total_tax)[0]? =
      some (build_segment cfg (str "MOA")
        [str "86" ++ cfg.component_separator ++ total_amount.formatFixed cfg.precision]) :=
    rfl
  rw [h0, Dec.formatFixed, Dec.scaledHalfEven_eq, ht]

/-- C5 witness: the count-and-subtotal theorem applied to a one-item
list with quantity 2 and price 3. -/
theorem C5_witness :
    segs5w.countP isLIN = [item5w].length ∧
    (⟨600, -2⟩ : Dec).toRat = (6 : Rat) ∧
    (generate_monetary_segments cfg0 ⟨600, -2⟩ ⟨0, -2⟩)[0]? =
      some (build_segment cfg0 (str "MOA")
        [str "86" ++ cfg0.component_separator ++
          formatScaled (ratScaledHalfEven 6 cfg0.precision) cfg0.precision]) :=
  C5_lin_count_and_subtotal cfg0 [item5w] ⟨600, -2⟩ ⟨0, -2⟩ segs5w 6
    (by decide)
    (by
      have hq : pyDecParse (sanitize_value item5w.quantity) = some ⟨2, 0⟩ := by decide
      have hp : pyDecParse (sanitize_value item5w.price) = some ⟨3, 0⟩ := by decide
      simp only [sum_line_totals, hq, hp, Option.some.injEq]
      rw [Dec.toRat_def, Dec.toRat_def]
      norm_num)

end Invoic
